import Mathlib

/-!
Verification of the per-client WebSocket session actor of
`crates/client-api/src/routes/subscribe.rs`.

The cooperative select loop of the actor is embedded as a step function over an
explicit state (`ActorState`).  Each loop iteration is driven by an `Event`
describing which `select!` arm won the race and the outcomes of the awaited
operations (feed/flush results, timeouts, the result of the in-flight handler).
The step function records, per iteration, the socket write operations it
attempts (`WriteOp`), the serialization-pool operations it performs
(`PoolOp`), and the framing-layer awaits it suspends on together with
whether each such await concurrently drives the in-flight handler slot
(`FramingAwait`).  A fuel-free run function (`runLoop`) folds the step
function over a list of events, mirroring the Rust `loop` with `break`.
-/

namespace Subscribe

/-- The wire protocol variant chosen at upgrade time (`Protocol`). -/
inductive Protocol
  | binary
  | text
deriving DecidableEq

/-- A payload carried by a data frame (`DataMessage`): UTF-8 text or raw
bytes (bytes are modelled as `List Nat`). -/
inductive DataMessage
  | text (s : String)
  | binary (b : List Nat)
deriving DecidableEq

/-- Close codes used by the actor (`CloseCode`): `Away` for module exit,
`Error` for handler-level close, plus an opaque variant for peer codes. -/
inductive CloseCode
  | away
  | error
  | other (n : Nat)
deriving DecidableEq

/-- A close frame (`CloseFrame`): a code and a reason string. -/
structure CloseFrame where
  code : CloseCode
  reason : String
deriving DecidableEq

/-- Transport-level frames delivered by `ws.next()` (`tungstenite::Message`).
`frame` is the raw-frame variant that the transport never surfaces. -/
inductive WsMessage
  | text (s : String)
  | binary (b : List Nat)
  | ping (b : List Nat)
  | pong (b : List Nat)
  | close (f : Option CloseFrame)
  | frame (raw : List Nat)
deriving DecidableEq

/-- Internal classification by the actor of an inbound frame
(`ClientMessage` in the source). -/
inductive ClientMessage
  | message (d : DataMessage)
  | ping (b : List Nat)
  | pong (b : List Nat)
  | close (f : Option CloseFrame)
deriving DecidableEq

/-- Embedding of `ClientMessage::from_message`: the 1:1 mapping from transport frames to
the internal variant.  The raw-frame case is `unreachable!()` in the source,
modelled here as `none` (a crash). -/
def ClientMessage.from_message : WsMessage → Option ClientMessage
  | .text s => some (.message (.text s))
  | .binary b => some (.message (.binary b))
  | .ping b => some (.ping b)
  | .pong b => some (.pong b)
  | .close f => some (.close f)
  | .frame _ => none

/-- The typed error returned by `client.handle_message`
(`MessageHandleError`): an `Execution` error carrying a serializable
payload, or any other error carrying its display text. -/
inductive MessageHandleError
  | execution (err : DataMessage)
  | other (e : String)
deriving DecidableEq

/-- The result of an in-flight handler future
(`Result<(), MessageHandleError>`). -/
inductive HandleResult
  | ok
  | err (e : MessageHandleError)
deriving DecidableEq

/-- The in-flight slot (`futures::future::MaybeDone`): empty (`Gone`), a
pending handler future for a dequeued payload, or a completed future whose
output has not yet been taken. -/
inductive MaybeDone
  | gone
  | future (msg : DataMessage) (timer : Nat)
  | done (res : HandleResult)
deriving DecidableEq

/-- Whether the in-flight slot is empty. -/
def isGone : MaybeDone → Bool
  | .gone => true
  | _ => false

/-- An outbound server message (`SerializableMessage`): its serialized
payload together with the optional workload tag and row count used for
metrics. -/
structure SerializableMessage where
  payload : DataMessage
  workload : Option Nat
  num_rows : Option Nat
deriving DecidableEq

/-- The per-session serialization scratch buffer (`SerializeBuffer`). -/
structure SerializeBuffer where
  id : Nat
deriving DecidableEq

/-- The allocation handle returned by `serialize` (`MsgAlloc`), modelled by
its strong reference count.  `serialize` hands one reference to the
returned data view and keeps one in the handle. -/
structure MsgAlloc where
  strong : Nat
deriving DecidableEq

/-- Embedding of `serialize(msg_buffer, msg, config)`: consumes the scratch buffer and
returns the allocation handle plus the serialized view.  Two strong
references exist afterwards: the handle and the view. -/
def serialize (_buf : SerializeBuffer) (msg : SerializableMessage) : MsgAlloc × DataMessage :=
  (⟨2⟩, msg.payload)

/-- Contract of the framing layer: after `feed` (or `send`) completes, the
framing layer has consumed the serialized view and dropped its reference,
leaving only the allocation handle. -/
def feedRelease (a : MsgAlloc) : MsgAlloc :=
  ⟨a.strong - 1⟩

/-- Embedding of `try_reclaim`: succeeds exactly when the handle is the sole
strong reference to the allocation. -/
def try_reclaim (a : MsgAlloc) : Option SerializeBuffer :=
  if a.strong = 1 then some ⟨0⟩ else none

/-- A socket write operation attempted by the actor. -/
inductive WriteOp
  | feed (m : DataMessage)
  | flush
  | send (m : DataMessage)
  | ping (b : List Nat)
  | close (f : CloseFrame)
deriving DecidableEq

/-- A serialization-pool operation performed by the actor. -/
inductive PoolOp
  | serializeOp
  | feedOp (ok : Bool)
  | flushOp (ok : Bool)
  | reclaimOk
  | reclaimFail
deriving DecidableEq

/-- The pool operation recorded for a `try_reclaim` call on a handle. -/
def reclaimOp (a : MsgAlloc) : PoolOp :=
  match try_reclaim a with
  | some _ => .reclaimOk
  | none => .reclaimFail

/-- The five framing-layer awaits of the loop body: the batched
feed-and-flush of Arm C, the close of the module-watch arm, the liveness
ping, the send of a serialized execution error, and the close carrying an
`other` handler error. -/
inductive AwaitKind
  | batchSend
  | moduleClose
  | livenessPing
  | execErrSend
  | handlerErrClose
deriving DecidableEq

/-- A record of one framing-layer await: which operation, whether the await
is wrapped in `also_poll(_, make_progress(&mut current_message))`, whether
the in-flight slot is empty at the await, and the timeout wrapped around
the operation. -/
structure FramingAwait where
  kind : AwaitKind
  drivesSlot : Bool
  slotGone : Bool
  deadline : Option Nat
deriving DecidableEq

/-- Constant `SEND_TIMEOUT`: the 5-second send deadline, in seconds. -/
def SEND_TIMEOUT : Nat := 5

/-- Constant `LIVELINESS_TIMEOUT`: the 60-second liveness tick interval,
in seconds. -/
def LIVELINESS_TIMEOUT : Nat := 60

/-- Mutable state of the actor loop.  `arrived` and `started` are ghost
histories of every payload pushed onto the inbound queue and of every
payload moved from the queue into the in-flight slot, in order. -/
structure ActorState where
  message_queue : List (DataMessage × Nat)
  current_message : MaybeDone
  closed : Bool
  got_pong : Bool
  sendrxClosed : Bool
  arrived : List DataMessage
  started : List DataMessage
deriving DecidableEq

/-- The state at entry of `ws_client_actor_inner`: empty queue, empty slot,
not closed, `got_pong` initialized to `true`, outbound receiver open. -/
def initialActorState : ActorState :=
  { message_queue := [], current_message := .gone, closed := false,
    got_pong := true, sendrxClosed := false, arrived := [], started := [] }

/-- The outcome of a timeout-wrapped framing send: completed successfully,
completed with a transport error, or hit the deadline. -/
inductive SendOutcome
  | ok
  | err (e : String)
  | timedOut
deriving DecidableEq

/-- One resolution of the `select!` race, together with the outcomes of the
operations the chosen arm awaits.  For the arms whose awaits are wrapped in
`also_poll`, `prog` is the result with which the concurrent
`make_progress` drove the in-flight future to completion (if it did).  For
the outbound arm, `feedOk` gives the result of each `ws.feed`, `flushOk`
the result of the final `ws.flush`, and `timeoutCut = some (k, mid)` means
the 5-second deadline fired after `k` messages were fully processed
(`mid = true` when the future was dropped after a further serialize, during
its feed). -/
inductive Event
  | handlerDone (res : HandleResult) (send : SendOutcome)
  | wsFrame (m : WsMessage)
  | wsError (e : String)
  | wsEOF
  | outbound (batch : List SerializableMessage) (feedOk : List Bool) (flushOk : Bool)
      (timeoutCut : Option (Nat × Bool)) (prog : Option HandleResult)
  | moduleOk
  | moduleExited (out : SendOutcome) (prog : Option HandleResult)
  | livenessTick (out : SendOutcome) (prog : Option HandleResult)
deriving DecidableEq

/-- How a loop iteration ends: fall through to the next iteration
(`continue` or the end of the dispatch `match`), `break` out of the loop,
or hit a panic (`unreachable!()` in `from_message`). -/
inductive StepExit
  | cont
  | broke
  | crashed
deriving DecidableEq

/-- The observable outcome of one loop iteration. -/
structure StepOut where
  state : ActorState
  writes : List WriteOp
  pool : List PoolOp
  awaits : List FramingAwait
  exit : StepExit
deriving DecidableEq

/-- The queue-to-slot move at the top of each loop iteration: if the
in-flight slot is `Gone` and the queue is non-empty, pop the front payload
and set the slot to a fresh handler future for it. -/
def fillSlot (s : ActorState) : ActorState :=
  match s.current_message, s.message_queue with
  | .gone, (m, t) :: rest =>
      { s with current_message := .future m t, message_queue := rest,
               started := s.started ++ [m] }
  | _, _ => s

/-- The effect of the concurrent `make_progress` inside `also_poll`: it may
drive a pending in-flight future to completion, storing its output in the
slot; it never creates or removes a handler. -/
def applyProgress (s : ActorState) : Option HandleResult → ActorState
  | none => s
  | some r =>
      match s.current_message with
      | .future _ _ => { s with current_message := .done r }
      | _ => s

/-- The `send_all` async block of the outbound arm, run to completion: for
each message, serialize with the pool buffer, feed the frame, reclaim the
allocation (the framing layer has dropped its reference), and stop early
when a feed fails; after a fully-fed batch, flush once.  Returns the pool
trace, the attempted writes, and whether the whole send succeeded. -/
def sendAllLoop (buf : SerializeBuffer) :
    List SerializableMessage → List Bool → Bool → List PoolOp × List WriteOp × Bool
  | [], _, flushOk => ([.flushOp flushOk], [.flush], flushOk)
  | msg :: rest, feedOk, flushOk =>
      let fr := feedOk.headD true
      let (msg_alloc, msg_data) := serialize buf msg
      let cell : List PoolOp := [.serializeOp, .feedOp fr, reclaimOp (feedRelease msg_alloc)]
      if fr then
        let (pt, wt, res) := sendAllLoop buf rest feedOk.tail flushOk
        (cell ++ pt, WriteOp.feed msg_data :: wt, res)
      else
        (cell, [WriteOp.feed msg_data], false)

/-- The observable progress of the `send_all` block when the 5-second
deadline fires and the future is dropped: `k` messages fully processed,
then either nothing, or (`mid`) one further message serialized and fed
without its reclaim having run; when every message was fed, the drop
happened during the final flush. -/
def sendAllCut (buf : SerializeBuffer) :
    List SerializableMessage → Nat → Bool → List PoolOp × List WriteOp
  | [], _, _ => ([], [WriteOp.flush])
  | msg :: rest, Nat.succ k, mid =>
      let (msg_alloc, msg_data) := serialize buf msg
      let cell : List PoolOp := [.serializeOp, .feedOp true, reclaimOp (feedRelease msg_alloc)]
      let (pt, wt) := sendAllCut buf rest k mid
      (cell ++ pt, WriteOp.feed msg_data :: wt)
  | msg :: _, 0, true =>
      let (_, msg_data) := serialize buf msg
      ([PoolOp.serializeOp], [WriteOp.feed msg_data])
  | _ :: _, 0, false => ([], [])

/-- One iteration of the Rust `loop` of the actor: the queue-to-slot move, then the
`select!` resolved by `e`, then the post-wait dispatch `match`.  `now` is
the current instant, used to stamp arrivals. -/
def step (s₀ : ActorState) (e : Event) (now : Nat) : StepOut :=
  let s := fillSlot s₀
  match e with
  | .handlerDone res send =>
      let s1 : ActorState := { s with current_message := .gone }
      match res with
      | .ok => ⟨s1, [], [], [], .cont⟩
      | .err (.execution errMsg) =>
          let (msg_alloc, msg_data) := serialize ⟨0⟩ ⟨errMsg, none, none⟩
          let aw : FramingAwait :=
            ⟨.execErrSend, false, isGone s1.current_message, some SEND_TIMEOUT⟩
          match send with
          | .timedOut => ⟨s1, [WriteOp.send msg_data], [PoolOp.serializeOp], [aw], .broke⟩
          | _ => ⟨s1, [WriteOp.send msg_data],
                   [PoolOp.serializeOp, reclaimOp (feedRelease msg_alloc)], [aw], .cont⟩
      | .err (.other eMsg) =>
          let aw : FramingAwait :=
            ⟨.handlerErrClose, false, isGone s1.current_message, some SEND_TIMEOUT⟩
          let cf : CloseFrame := ⟨.error, eMsg⟩
          match send with
          | .timedOut => ⟨s1, [WriteOp.close cf], [], [aw], .broke⟩
          | _ => ⟨s1, [WriteOp.close cf], [], [aw], .cont⟩
  | .wsFrame m =>
      match ClientMessage.from_message m with
      | none => ⟨s, [], [], [], .crashed⟩
      | some (.message d) =>
          ⟨{ s with message_queue := s.message_queue ++ [(d, now)],
                    arrived := s.arrived ++ [d] }, [], [], [], .cont⟩
      | some (.ping _) => ⟨s, [], [], [], .cont⟩
      | some (.pong _) => ⟨{ s with got_pong := true }, [], [], [], .cont⟩
      | some (.close _) =>
          ⟨{ s with sendrxClosed := true, closed := true }, [], [], [], .cont⟩
  | .wsError _ => ⟨s, [], [], [], .broke⟩
  | .wsEOF => ⟨s, [], [], [], .broke⟩
  | .outbound batch feedOk flushOk timeoutCut prog =>
      if s.closed then
        ⟨s, [], [], [], .cont⟩
      else
        let s1 := applyProgress s prog
        let aw : FramingAwait :=
          ⟨.batchSend, true, isGone s1.current_message, some SEND_TIMEOUT⟩
        match timeoutCut with
        | none =>
            let (pt, wt, _res) := sendAllLoop ⟨0⟩ batch feedOk flushOk
            ⟨s1, wt, pt, [aw], .cont⟩
        | some (k, mid) =>
            let (pt, wt) := sendAllCut ⟨0⟩ batch k mid
            ⟨s1, wt, pt, [aw], .broke⟩
  | .moduleOk => ⟨s, [], [], [], .cont⟩
  | .moduleExited out prog =>
      let s1 := applyProgress s prog
      let cf : CloseFrame := ⟨.away, "module exited"⟩
      let aw : FramingAwait :=
        ⟨.moduleClose, true, isGone s1.current_message, some SEND_TIMEOUT⟩
      match out with
      | .timedOut => ⟨s1, [WriteOp.close cf], [], [aw], .broke⟩
      | _ => ⟨{ s1 with closed := true }, [WriteOp.close cf], [], [aw], .cont⟩
  | .livenessTick out prog =>
      if s.got_pong then
        let s1 : ActorState := { s with got_pong := false }
        let s2 := applyProgress s1 prog
        let aw : FramingAwait :=
          ⟨.livenessPing, true, isGone s2.current_message, some SEND_TIMEOUT⟩
        match out with
        | .timedOut => ⟨s2, [WriteOp.ping []], [], [aw], .broke⟩
        | _ => ⟨s2, [WriteOp.ping []], [], [aw], .cont⟩
      else
        ⟨s, [], [], [], .broke⟩

/-- Which select resolutions are possible in a given (post-fill) state: the
handler-completion arm requires a non-empty slot and, when the slot already
holds a stored output, reports exactly that output; `recv_many` yields a
non-empty batch of at most 32 messages; the module-watch arm carries
`if !closed`. -/
def eventValid (s : ActorState) : Event → Bool
  | .handlerDone res _ =>
      match s.current_message with
      | .gone => false
      | .future _ _ => true
      | .done r => decide (r = res)
  | .outbound batch _ _ _ _ => !batch.isEmpty && decide (batch.length ≤ 32)
  | .moduleOk => !s.closed
  | .moduleExited _ _ => !s.closed
  | _ => true

/-- Validity of an event against the pre-iteration state: the `select!`
races from the state produced by the queue-to-slot move. -/
def stepValid (s : ActorState) (e : Event) : Bool :=
  eventValid (fillSlot s) e

/-- The observable outcome of running the loop on a list of timed events:
final state, concatenated traces, whether the loop exited via `break`
(after which `sendrx.close()` on the line following the loop runs), and
whether it crashed. -/
structure RunOut where
  state : ActorState
  writes : List WriteOp
  pool : List PoolOp
  awaits : List FramingAwait
  terminated : Bool
  crashed : Bool
deriving DecidableEq

/-- The loop of `ws_client_actor_inner`, folded over a list of events.  On
`break`, the code after the loop closes the outbound receiver. -/
def runLoop : ActorState → List (Event × Nat) → RunOut
  | s, [] => ⟨s, [], [], [], false, false⟩
  | s, (e, now) :: rest =>
      let o := step s e now
      match o.exit with
      | .cont =>
          let r := runLoop o.state rest
          ⟨r.state, o.writes ++ r.writes, o.pool ++ r.pool, o.awaits ++ r.awaits,
            r.terminated, r.crashed⟩
      | .broke => ⟨{ o.state with sendrxClosed := true }, o.writes, o.pool, o.awaits, true, false⟩
      | .crashed => ⟨o.state, o.writes, o.pool, o.awaits, false, true⟩

/-- The FIFO ghost invariant: every arrival is either already started (in
arrival order) or still in the queue (in arrival order). -/
def fifoInv (s : ActorState) : Prop :=
  s.arrived = s.started ++ s.message_queue.map Prod.fst

/-- The pool-discipline automaton, folded over a pool trace: `some false`
when the scratch buffer is available, `some true` after a serialization
whose allocation has not yet been reclaimed, `none` on a discipline
violation (a second serialization before reclaim, a reclaim failure, or a
reclaim with nothing outstanding). -/
def poolStepF : Option Bool → PoolOp → Option Bool
  | none, _ => none
  | some b, .serializeOp => if b then none else some true
  | some b, .reclaimOk => if b then some false else none
  | some _, .reclaimFail => none
  | some b, _ => some b

/-- Fold of the pool-discipline automaton over a trace. -/
def poolRun (init : Option Bool) (t : List PoolOp) : Option Bool :=
  t.foldl poolStepF init

/-! Cleanup guard of `ws_client_actor`.

`ws_client_actor` wraps the `ClientConnection` in a `scopeguard` whose
finalizer spawns `client.disconnect()`, runs `ws_client_actor_inner`, and
on the normal path extracts the connection with `ScopeGuard::into_inner`
(disarming the finalizer) and awaits `disconnect` directly.  Rust drop
semantics: dropping an armed guard runs the finalizer once; a disarmed
guard does nothing.  Cancellation of the task drops the actor future at an
await point inside `ws_client_actor_inner`, which drops the still-armed
guard. -/

/-- How a `disconnect` invocation happens: awaited in place on the normal
path, or spawned as a detached task by the finalizer of the guard. -/
inductive DisconnectMode
  | awaited
  | spawned
deriving DecidableEq

/-- How the actor future ends: `ws_client_actor_inner` returned (this
covers the normal return of the loop and every `break` path — read error,
end-of-stream, send-deadline expiry, liveness timeout — all of which are
returns of the inner future), or the enclosing task was cancelled while
the inner future was suspended. -/
inductive ActorExit
  | completed
  | cancelled
deriving DecidableEq

/-- A scope guard holding the session: `armed` records whether its
finalizer will run when it is dropped. -/
structure SessionGuard where
  armed : Bool
deriving DecidableEq

/-- Embedding of the `scopeguard::guard` call wrapping the client with a
finalizer that spawns `client.disconnect()`: a freshly created guard is
armed. -/
def scopeGuard : SessionGuard := ⟨true⟩

/-- Embedding of `ScopeGuard::into_inner`: extracts the session and disarms the
finalizer. -/
def intoInner (g : SessionGuard) : SessionGuard := { g with armed := false }

/-- Dropping a guard: an armed finalizer spawns `disconnect` exactly once;
a disarmed guard spawns nothing. -/
def dropGuard (g : SessionGuard) : List DisconnectMode :=
  if g.armed then [.spawned] else []

/-- Embedding of `ws_client_actor`, as the sequence of `disconnect` invocations it
performs for a given ending of the actor future: on cancellation the armed
guard is dropped; on completion the guard is disarmed by `into_inner`
(so its drop contributes nothing) and `disconnect` is awaited directly. -/
def ws_client_actor (exit : ActorExit) : List DisconnectMode :=
  let g := scopeGuard
  match exit with
  | .cancelled => dropGuard g
  | .completed => dropGuard (intoInner g) ++ [.awaited]

/-! Upgrade handler `handle_websocket`.

The decision sequence of the handler is embedded as a function of an
environment record carrying the outcome of each external call, in the
order the source performs them: the connection-id zero check, the
name-or-identity resolution, the subprotocol selection, the database
lookup (whose `Result` is `.unwrap()`ed), the leader selection
(`map_err(log_and_500)` and `ok_or(StatusCode::NOT_FOUND)`), and the
module-watcher acquisition (`map_err(log_and_500)`).  On success it spawns
a task that upgrades the socket, calls `ClientConnection::spawn` with the
actor closure — consuming the closure and spawning the actor task during
the call — and then enqueues the identity token via
`client.send_message`. -/

/-- The observable steps of the task spawned by `handle_websocket`. -/
inductive TaskAction
  | upgradeWs
  | spawnClientConnection
  | enqueueIdentityToken
deriving DecidableEq

/-- Result of `name_or_identity.resolve(&ctx)`: a propagated error
response with some status, or the resolved database identity. -/
inductive ResolveRes
  | resolveErr (status : Nat)
  | resolved (identity : Nat)
deriving DecidableEq

/-- Result of `ctx.get_database_by_identity(&db_identity)`, a
`Result<Option<Database>, _>`: an internal error, no such database, or the
database (modelled by its id). -/
inductive DbLookupRes
  | lookupErr (e : String)
  | noDb
  | db (id : Nat)
deriving DecidableEq

/-- Result of `ctx.leader(database.id).await`, a
`Result<Option<Leader>, _>`: an internal error, no available leader, or
the leader (modelled by its replica id). -/
inductive LeaderRes
  | leaderErr (e : String)
  | noLeader
  | leader (replica : Nat)
deriving DecidableEq

/-- Result of `leader.module_watcher().await`: an internal error or the
watcher. -/
inductive WatcherRes
  | watcherErr (e : String)
  | watcher
deriving DecidableEq

/-- Environment of one `handle_websocket` invocation: the optional
`connection_id` request parameter, the random id generated when it is
absent, and the outcomes of the external calls.  `upgradeOk` and
`spawnOk` are the outcomes of the socket upgrade and of
`ClientConnection::spawn` inside the spawned task. -/
structure WsEnv where
  connection_id : Option Nat
  randomId : Nat
  resolveRes : ResolveRes
  selectedProtocol : Option Protocol
  dbLookup : DbLookupRes
  leaderRes : LeaderRes
  moduleWatcherRes : WatcherRes
  upgradeOk : Bool
  spawnOk : Bool
deriving DecidableEq

/-- The outcome of `handle_websocket`: an HTTP response with a status (and
the body the source attaches, when any), a panic of the handler (from
`.unwrap()`), or acceptance of the upgrade together with the action
sequence of the spawned task. -/
inductive HttpResult
  | response (status : Nat) (msg : Option String)
  | panicRes (msg : String)
  | accept (task : List TaskAction)
deriving DecidableEq

/-- Action sequence of the spawned task: upgrade the socket (return early on
failure), call `ClientConnection::spawn` with the actor closure (return
early on failure), then enqueue the identity token as the first use of the
returned client. -/
def spawnedTask (env : WsEnv) : List TaskAction :=
  if env.upgradeOk then
    if env.spawnOk then
      [.upgradeWs, .spawnClientConnection, .enqueueIdentityToken]
    else
      [.upgradeWs, .spawnClientConnection]
  else
    [.upgradeWs]

/-- Embedding of `handle_websocket` over `WsEnv`, in the order of checks
performed by the source. -/
def handle_websocket (env : WsEnv) : HttpResult :=
  let connId := env.connection_id.getD env.randomId
  if connId = 0 then
    .response 400 (some "Invalid connection ID: the all-zeros ConnectionId is reserved.")
  else
    match env.resolveRes with
    | .resolveErr st => .response st none
    | .resolved _ =>
        match env.selectedProtocol with
        | none => .response 400 (some "no valid protocol selected")
        | some _ =>
            match env.dbLookup with
            | .lookupErr e => .panicRes e
            | .noDb => .response 404 none
            | .db _ =>
                match env.leaderRes with
                | .leaderErr _ => .response 500 none
                | .noLeader => .response 404 none
                | .leader _ =>
                    match env.moduleWatcherRes with
                    | .watcherErr _ => .response 500 none
                    | .watcher => .accept (spawnedTask env)

/-! Concrete instances used as counterexamples and witnesses. -/

/-- A fully successful upgrade environment. -/
def envOk : WsEnv :=
  { connection_id := none, randomId := 7, resolveRes := .resolved 1,
    selectedProtocol := some .binary, dbLookup := .db 1, leaderRes := .leader 1,
    moduleWatcherRes := .watcher, upgradeOk := true, spawnOk := true }

/-- An environment whose database lookup fails internally. -/
def envDbErr : WsEnv :=
  { envOk with dbLookup := .lookupErr "db lookup failed" }

/-- An actor state with the `closed` flag set and a pong on record. -/
def closedState : ActorState :=
  { message_queue := [], current_message := .gone, closed := true,
    got_pong := true, sendrxClosed := true, arrived := [], started := [] }

/-- Witness state with one queued inbound payload and an empty in-flight
slot. -/
def queuedState : ActorState :=
  { message_queue := [(.binary [1, 2], 0)], current_message := .gone, closed := false,
    got_pong := true, sendrxClosed := false, arrived := [.binary [1, 2]], started := [] }

/-- Witness state whose previous liveness ping was never answered. -/
def noPongState : ActorState := { initialActorState with got_pong := false }

/-- An upgrade environment whose database identity is unknown. -/
def envNoDb : WsEnv := { envOk with dbLookup := .noDb }

/-- An upgrade environment whose leader selection fails internally. -/
def envLeaderErr : WsEnv := { envOk with leaderRes := .leaderErr "leader failure" }

/-- The pool-trace cell of one successfully fed message: serialize, feed,
reclaim. -/
def sendCellOk : List PoolOp := [.serializeOp, .feedOp true, .reclaimOk]

end Subscribe

namespace Subscribe

/-! Helper lemmas about the queue-to-slot move and progress pumping. -/

/-- The queue-to-slot move never changes the `closed` flag. -/
theorem fillSlot_closed (s : ActorState) : (fillSlot s).closed = s.closed := by
  unfold fillSlot; split <;> rfl

/-- The queue-to-slot move never changes the pong flag. -/
theorem fillSlot_got_pong (s : ActorState) : (fillSlot s).got_pong = s.got_pong := by
  unfold fillSlot; split <;> rfl

/-- The queue-to-slot move starts at most one handler. -/
theorem fillSlot_started_le (s : ActorState) :
    (fillSlot s).started.length ≤ s.started.length + 1 := by
  unfold fillSlot; split
  · simp
  · exact Nat.le_succ _

/-- Pumping the in-flight future never starts a handler. -/
theorem applyProgress_started (s : ActorState) (p : Option HandleResult) :
    (applyProgress s p).started = s.started := by
  unfold applyProgress
  split
  · rfl
  · split <;> rfl

/-- Pumping the in-flight future never changes the pong flag. -/
theorem applyProgress_got_pong (s : ActorState) (p : Option HandleResult) :
    (applyProgress s p).got_pong = s.got_pong := by
  unfold applyProgress
  split
  · rfl
  · split <;> rfl

/-- Pumping the in-flight future preserves the FIFO ghost invariant. -/
theorem applyProgress_fifo (s : ActorState) (p : Option HandleResult) (h : fifoInv s) :
    fifoInv (applyProgress s p) := by
  unfold applyProgress
  split
  · exact h
  · split
    · exact h
    · exact h

/-- No arm of the select loop starts a handler: only the queue-to-slot move
at the top of the iteration does. -/
theorem step_started (s : ActorState) (e : Event) (now : Nat) :
    (step s e now).state.started = (fillSlot s).started := by
  cases e with
  | handlerDone res send =>
      cases res with
      | ok => rfl
      | err e' => cases e' <;> cases send <;> rfl
  | wsFrame m => cases m <;> rfl
  | wsError e' => rfl
  | wsEOF => rfl
  | outbound batch feedOk flushOk cut prog =>
      simp only [step]
      split
      · rfl
      · cases cut <;> simp [applyProgress_started]
  | moduleOk => rfl
  | moduleExited out prog => cases out <;> simp [step, applyProgress_started]
  | livenessTick out prog =>
      simp only [step]
      split
      · cases out <;> simp [applyProgress_started]
      · rfl

/-- The queue-to-slot move preserves the FIFO ghost invariant. -/
theorem fifoInv_fillSlot (s : ActorState) (h : fifoInv s) : fifoInv (fillSlot s) := by
  unfold fifoInv at *
  unfold fillSlot
  split
  · next m t rest hg hq =>
      simp only []
      rw [h, hq]
      simp
  · exact h

/-- Every loop iteration preserves the FIFO ghost invariant. -/
theorem fifoInv_step (s : ActorState) (e : Event) (now : Nat) (h : fifoInv s) :
    fifoInv (step s e now).state := by
  have h1 := fifoInv_fillSlot s h
  cases e with
  | handlerDone res send =>
      cases res with
      | ok => exact h1
      | err e' => cases e' <;> cases send <;> exact h1
  | wsFrame m =>
      cases m with
      | text s' =>
          simp only [step, ClientMessage.from_message]
          unfold fifoInv at h1 ⊢
          simp [h1]
      | binary b =>
          simp only [step, ClientMessage.from_message]
          unfold fifoInv at h1 ⊢
          simp [h1]
      | ping b => exact h1
      | pong b => exact h1
      | close f => exact h1
      | frame raw => exact h1
  | wsError e' => exact h1
  | wsEOF => exact h1
  | outbound batch feedOk flushOk cut prog =>
      simp only [step]
      split
      · exact h1
      · cases cut with
        | none => simpa using applyProgress_fifo _ prog h1
        | some km => simpa using applyProgress_fifo _ prog h1
  | moduleOk => exact h1
  | moduleExited out prog =>
      cases out with
      | timedOut => simpa [step] using applyProgress_fifo _ prog h1
      | ok => simpa [step] using applyProgress_fifo _ prog h1
      | err e' => simpa [step] using applyProgress_fifo _ prog h1
  | livenessTick out prog =>
      simp only [step]
      split
      · cases out <;>
          simpa using applyProgress_fifo { fillSlot s with got_pong := false } prog h1
      · exact h1

/-- The queue-to-slot move is the identity when the slot is occupied. -/
theorem fillSlot_busy (s : ActorState) (h : s.current_message ≠ MaybeDone.gone) :
    fillSlot s = s := by
  unfold fillSlot
  split
  · next hg hq => exact absurd hg h
  · rfl

/-- The queue-to-slot move is the identity when the queue is empty. -/
theorem fillSlot_empty_queue (s : ActorState) (h : s.message_queue = []) :
    fillSlot s = s := by
  unfold fillSlot
  split
  · next hg hq => rw [h] at hq; simp at hq
  · rfl

/-- With an empty slot and a non-empty queue, the queue-to-slot move pops
exactly the front payload into a fresh handler future. -/
theorem fillSlot_moves (s : ActorState) (m : DataMessage) (t : Nat)
    (rest : List (DataMessage × Nat)) (h1 : s.current_message = MaybeDone.gone)
    (h2 : s.message_queue = (m, t) :: rest) :
    fillSlot s = { s with current_message := MaybeDone.future m t,
                          message_queue := rest, started := s.started ++ [m] } := by
  simp only [fillSlot, h1, h2]

/-! Pool discipline lemmas. -/

/-- The pool automaton distributes over trace concatenation. -/
theorem poolRun_append (i : Option Bool) (a b : List PoolOp) :
    poolRun i (a ++ b) = poolRun (poolRun i a) b :=
  List.foldl_append ..

/-- A completed `send_all` block leaves the pool balanced: every
serialization is followed by a successful reclaim. -/
theorem poolRun_sendAllLoop (msgs : List SerializableMessage) :
    ∀ feedOk flushOk,
      poolRun (some false) (sendAllLoop ⟨0⟩ msgs feedOk flushOk).1 = some false := by
  induction msgs with
  | nil => intro feedOk flushOk; rfl
  | cons m rest ih =>
      intro feedOk flushOk
      simp only [sendAllLoop]
      split
      · simpa [poolRun_append] using ih feedOk.tail flushOk
      · rfl

/-- A `send_all` block dropped by the deadline leaves the pool in a
non-violating state (possibly with one last serialization outstanding). -/
theorem poolRun_sendAllCut (msgs : List SerializableMessage) :
    ∀ k mid, (poolRun (some false) (sendAllCut ⟨0⟩ msgs k mid).1).isSome = true := by
  induction msgs with
  | nil => intro k mid; rfl
  | cons m rest ih =>
      intro k mid
      cases k with
      | zero => cases mid <;> rfl
      | succ k' =>
          simp only [sendAllCut]
          simpa [poolRun_append] using ih k' mid

/-- A loop iteration that continues leaves the pool balanced. -/
theorem poolRun_step_cont (s : ActorState) (e : Event) (now : Nat) :
    (step s e now).exit = StepExit.cont →
    poolRun (some false) (step s e now).pool = some false := by
  cases e with
  | handlerDone res send =>
      cases res with
      | ok => intro _; rfl
      | err e' => cases e' <;> cases send <;> simp [step] <;> rfl
  | wsFrame m =>
      cases m <;> intro _ <;> rfl
  | wsError e' => intro h; simp [step] at h
  | wsEOF => intro h; simp [step] at h
  | outbound batch feedOk flushOk cut prog =>
      simp only [step]
      split
      · intro _; rfl
      · cases cut with
        | none => intro _; simpa using poolRun_sendAllLoop batch feedOk flushOk
        | some km => simp
  | moduleOk => intro _; rfl
  | moduleExited out prog => cases out <;> simp [step] <;> try rfl
  | livenessTick out prog =>
      simp only [step]
      split
      · cases out <;> simp <;> try rfl
      · simp

/-- No loop iteration violates the pool discipline. -/
theorem poolRun_step_isSome (s : ActorState) (e : Event) (now : Nat) :
    (poolRun (some false) (step s e now).pool).isSome = true := by
  cases e with
  | handlerDone res send =>
      cases res with
      | ok => rfl
      | err e' => cases e' <;> cases send <;> rfl
  | wsFrame m => cases m <;> rfl
  | wsError e' => rfl
  | wsEOF => rfl
  | outbound batch feedOk flushOk cut prog =>
      simp only [step]
      split
      · rfl
      · cases cut with
        | none => simp [poolRun_sendAllLoop batch feedOk flushOk]
        | some km =>
            obtain ⟨k, mid⟩ := km
            simpa using poolRun_sendAllCut batch k mid
  | moduleOk => rfl
  | moduleExited out prog => cases out <;> rfl
  | livenessTick out prog =>
      simp only [step]
      split
      · cases out <;> rfl
      · rfl

/-- No run of the loop violates the pool discipline. -/
theorem poolRun_runLoop (events : List (Event × Nat)) :
    ∀ s, (poolRun (some false) (runLoop s events).pool).isSome = true := by
  induction events with
  | nil => intro s; rfl
  | cons p rest ih =>
      intro s
      obtain ⟨e, now⟩ := p
      simp only [runLoop]
      split
      · next heq =>
          simp only [poolRun_append, poolRun_step_cont s e now heq]
          exact ih _
      · exact poolRun_step_isSome s e now
      · exact poolRun_step_isSome s e now

/-- A completed `send_all` block never fails a reclaim. -/
theorem noFail_sendAllLoop (msgs : List SerializableMessage) :
    ∀ feedOk flushOk,
      ((sendAllLoop ⟨0⟩ msgs feedOk flushOk).1.all
        fun op => decide (op ≠ PoolOp.reclaimFail)) = true := by
  induction msgs with
  | nil => intro feedOk flushOk; rfl
  | cons m rest ih =>
      intro feedOk flushOk
      simp only [sendAllLoop]
      split
      · simp [reclaimOp, feedRelease, serialize, try_reclaim]
        simpa using ih feedOk.tail flushOk
      · rfl

/-- A deadline-dropped `send_all` block never fails a reclaim. -/
theorem noFail_sendAllCut (msgs : List SerializableMessage) :
    ∀ k mid,
      ((sendAllCut ⟨0⟩ msgs k mid).1.all
        fun op => decide (op ≠ PoolOp.reclaimFail)) = true := by
  induction msgs with
  | nil => intro k mid; rfl
  | cons m rest ih =>
      intro k mid
      cases k with
      | zero => cases mid <;> rfl
      | succ k' =>
          simp only [sendAllCut]
          simp [reclaimOp, feedRelease, serialize, try_reclaim]
          simpa using ih k' mid

/-- No loop iteration fails a reclaim. -/
theorem noFail_step (s : ActorState) (e : Event) (now : Nat) :
    ((step s e now).pool.all fun op => decide (op ≠ PoolOp.reclaimFail)) = true := by
  cases e with
  | handlerDone res send =>
      cases res with
      | ok => rfl
      | err e' => cases e' <;> cases send <;> rfl
  | wsFrame m => cases m <;> rfl
  | wsError e' => rfl
  | wsEOF => rfl
  | outbound batch feedOk flushOk cut prog =>
      simp only [step]
      split
      · rfl
      · cases cut with
        | none => simpa using noFail_sendAllLoop batch feedOk flushOk
        | some km =>
            obtain ⟨k, mid⟩ := km
            simpa using noFail_sendAllCut batch k mid
  | moduleOk => rfl
  | moduleExited out prog => cases out <;> rfl
  | livenessTick out prog =>
      simp only [step]
      split
      · cases out <;> rfl
      · rfl

/-- No run of the loop fails a reclaim. -/
theorem noFail_runLoop (events : List (Event × Nat)) :
    ∀ s, ((runLoop s events).pool.all fun op => decide (op ≠ PoolOp.reclaimFail)) = true := by
  induction events with
  | nil => intro s; rfl
  | cons p rest ih =>
      intro s
      obtain ⟨e, now⟩ := p
      simp only [runLoop]
      split
      · simp only [List.all_append, noFail_step, ih, Bool.and_self]
      · exact noFail_step s e now
      · exact noFail_step s e now

/-- Characterization of a batch whose feed fails at index `k`: the failed
message is still serialized, fed and reclaimed, the remaining messages are
neither serialized nor fed, no flush happens, and the batch reports a
non-timeout error. -/
theorem sendAllLoop_feed_fail :
    ∀ (k : Nat) (batch : List SerializableMessage) (restOk : List Bool) (flushOk : Bool),
      k < batch.length →
      sendAllLoop ⟨0⟩ batch (List.replicate k true ++ false :: restOk) flushOk
        = ((List.replicate k sendCellOk).flatten
             ++ [PoolOp.serializeOp, PoolOp.feedOp false, PoolOp.reclaimOk],
           (batch.take (k + 1)).map (fun m => WriteOp.feed m.payload),
           false) := by
  intro k
  induction k with
  | zero =>
      intro batch restOk flushOk h
      match batch, h with
      | m :: rest, _ =>
          simp [sendAllLoop, serialize, reclaimOp, feedRelease, try_reclaim]
  | succ k' ih =>
      intro batch restOk flushOk h
      match batch, h with
      | m :: rest, h =>
          have hk : k' < rest.length := Nat.lt_of_succ_lt_succ h
          simp only [List.replicate_succ, List.cons_append, sendAllLoop,
            List.headD_cons, List.tail_cons, if_true]
          rw [ih rest restOk flushOk hk]
          simp [sendCellOk, serialize, reclaimOp, feedRelease, try_reclaim,
            List.replicate_succ]

end Subscribe

namespace Subscribe

/-- C1: on every ending of the session actor — the inner loop returning
(which covers its normal return and every `break` path: read error,
end-of-stream, send-deadline expiry, liveness timeout) or cancellation of
the enclosing task — `disconnect` is invoked exactly once; the completed
path extracts the session from the scope guard and awaits `disconnect`
directly, while the finalizer of the guard spawns `disconnect` on the
cancellation path. -/
theorem c1_disconnect_exactly_once :
    (∀ exit, (ws_client_actor exit).length = 1)
    ∧ ws_client_actor ActorExit.completed = [DisconnectMode.awaited]
    ∧ ws_client_actor ActorExit.cancelled = [DisconnectMode.spawned] := by
  refine ⟨fun exit => ?_, rfl, rfl⟩
  cases exit <;> rfl

/-- C2: a new handler is created only by the queue-to-slot move, which
fires only when the in-flight slot is `Gone` and the inbound queue is
non-empty, moves exactly the front payload of the queue into the slot, and
leaves at most one new handler per iteration; consequently the ghost
history of started handlers is always a prefix of the ghost history of
arrivals (the FIFO invariant is preserved by every iteration). -/
theorem c2_single_inflight_fifo :
    ∀ (s : ActorState) (e : Event) (now : Nat),
      (s.current_message ≠ MaybeDone.gone → fillSlot s = s)
      ∧ (s.message_queue = [] → fillSlot s = s)
      ∧ (∀ m t rest, s.current_message = MaybeDone.gone →
           s.message_queue = (m, t) :: rest →
           fillSlot s = { s with current_message := MaybeDone.future m t,
                                 message_queue := rest,
                                 started := s.started ++ [m] })
      ∧ (step s e now).state.started = (fillSlot s).started
      ∧ (step s e now).state.started.length ≤ s.started.length + 1
      ∧ (fifoInv s → fifoInv (step s e now).state) := by
  intro s e now
  refine ⟨fillSlot_busy s, fillSlot_empty_queue s,
    fun m t rest h1 h2 => fillSlot_moves s m t rest h1 h2,
    step_started s e now, ?_, fifoInv_step s e now⟩
  rw [step_started s e now]
  exact fillSlot_started_le s

/-- Witness for C2: a queued payload is moved into the empty slot, and the
FIFO invariant holds after an iteration from a concrete state. -/
theorem c2_witness :
    fillSlot queuedState
      = { queuedState with current_message := .future (.binary [1, 2]) 0,
                           message_queue := [],
                           started := [DataMessage.binary [1, 2]] }
    ∧ fifoInv (step queuedState (.handlerDone .ok .ok) 0).state :=
  ⟨(c2_single_inflight_fifo queuedState (.handlerDone .ok .ok) 0).2.2.1
      (.binary [1, 2]) 0 [] rfl rfl,
   (c2_single_inflight_fifo queuedState (.handlerDone .ok .ok) 0).2.2.2.2.2 rfl⟩

/-- C3 counterexample: in a state with `closed = true`, a liveness tick
with a pong on record is a valid select resolution and still attempts an
outbound write (a Ping) on the socket, contradicting the claim that once
`closed` is true no further outbound writes of any kind are attempted. -/
theorem c3_counterexample :
    closedState.closed = true
    ∧ stepValid closedState (.livenessTick .ok none) = true
    ∧ (step closedState (.livenessTick .ok none) 0).writes = [WriteOp.ping []] := by
  decide

/-- C3 amended: once `closed` is true, the outbound-batch arm drops its
batch without any socket write or serialization and continues, and the
module-watcher arm is disabled; liveness pings (and handler-error sends)
may however still be attempted. -/
theorem c3_amended :
    ∀ (s : ActorState) (batch : List SerializableMessage) (feedOk : List Bool)
      (flushOk : Bool) (cut : Option (Nat × Bool)) (prog prog2 : Option HandleResult)
      (now : Nat) (out : SendOutcome),
      s.closed = true →
      (step s (.outbound batch feedOk flushOk cut prog) now).writes = []
      ∧ (step s (.outbound batch feedOk flushOk cut prog) now).pool = []
      ∧ (step s (.outbound batch feedOk flushOk cut prog) now).exit = StepExit.cont
      ∧ stepValid s (.moduleExited out prog2) = false
      ∧ stepValid s .moduleOk = false := by
  intro s batch feedOk flushOk cut prog prog2 now out h
  have hc : (fillSlot s).closed = true := by rw [fillSlot_closed]; exact h
  refine ⟨?_, ?_, ?_, ?_, ?_⟩ <;> simp [step, stepValid, eventValid, hc]

/-- Witness for the amended C3 at a concrete closed state. -/
theorem c3_amended_witness :
    (step closedState (.outbound [⟨.binary [3], none, none⟩] [] true none none) 0).writes = []
    ∧ stepValid closedState (.moduleExited .ok none) = false :=
  ⟨(c3_amended closedState [⟨.binary [3], none, none⟩] [] true none none none 0 .ok rfl).1,
   (c3_amended closedState [⟨.binary [3], none, none⟩] [] true none none none 0 .ok
      rfl).2.2.2.1⟩

/-- C4 counterexample: in the task spawned by a successful
`handle_websocket`, the call to `ClientConnection::spawn` — which consumes
the actor closure and spawns the actor task — strictly precedes the
enqueue of the identity token, contradicting the claim that the ordering
is achieved by enqueueing the token before the actor task is spawned. -/
theorem c4_counterexample :
    handle_websocket envOk
      = HttpResult.accept [TaskAction.upgradeWs, TaskAction.spawnClientConnection,
          TaskAction.enqueueIdentityToken]
    ∧ (spawnedTask envOk).findIdx (fun x => decide (x = TaskAction.spawnClientConnection))
        < (spawnedTask envOk).findIdx (fun x => decide (x = TaskAction.enqueueIdentityToken))
    ∧ decide ((spawnedTask envOk).findIdx (fun x => decide (x = TaskAction.enqueueIdentityToken))
        < (spawnedTask envOk).findIdx (fun x => decide (x = TaskAction.spawnClientConnection)))
        = false := by
  decide

/-- C4 amended: on every successful upgrade, the spawned task performs
exactly the sequence upgrade, `ClientConnection::spawn` (spawning the
actor task), then the identity-token enqueue — so the token is enqueued
immediately after the actor task is spawned, as the first and only message
this task pushes into the outbound channel. -/
theorem c4_amended :
    ∀ env : WsEnv, env.upgradeOk = true → env.spawnOk = true →
      ∀ ts, handle_websocket env = HttpResult.accept ts →
        ts = [TaskAction.upgradeWs, TaskAction.spawnClientConnection,
              TaskAction.enqueueIdentityToken] := by
  intro env hu hs ts h
  unfold handle_websocket at h
  rcases Decidable.em (env.connection_id.getD env.randomId = 0) with h0 | h0
  · simp [h0] at h
  · simp [h0] at h
    repeat' split at h
    all_goals simp_all [spawnedTask]

/-- Witness for the amended C4 at a concrete successful environment. -/
theorem c4_amended_witness :
    spawnedTask envOk = [TaskAction.upgradeWs, TaskAction.spawnClientConnection,
      TaskAction.enqueueIdentityToken] :=
  c4_amended envOk rfl rfl (spawnedTask envOk) rfl

/-- C5: every framing-layer await of every loop iteration either is
wrapped in `also_poll` (so the in-flight slot is concurrently driven
during the await) or happens while the in-flight slot is empty; the actor
is never suspended on a framing operation while a pending in-flight
handler goes unpolled. -/
theorem c5_anti_stall :
    ∀ (s : ActorState) (e : Event) (now : Nat),
      ((step s e now).awaits.all fun a => a.drivesSlot || a.slotGone) = true := by
  intro s e now
  cases e with
  | handlerDone res send =>
      cases res with
      | ok => rfl
      | err e' => cases e' <;> cases send <;> rfl
  | wsFrame m => cases m <;> rfl
  | wsError e' => rfl
  | wsEOF => rfl
  | outbound batch feedOk flushOk cut prog =>
      simp only [step]
      split
      · rfl
      · cases cut <;> simp [List.all]
  | moduleOk => rfl
  | moduleExited out prog => cases out <;> rfl
  | livenessTick out prog =>
      simp only [step]
      split
      · cases out <;> rfl
      · rfl

/-- C6: over every run of the loop, the pool trace satisfies the reclaim
discipline — every serialization through the pool buffer is followed by a
successful reclaim of its allocation before the next serialization occurs
(a serialization can be left outstanding only by the final, breaking
iteration) — and the sole-ownership assertion of `try_reclaim` never
fails, so the terminating `expect` branch is unreachable under the
reference-dropping contract of the framing layer. -/
theorem c6_pool_reclaim :
    ∀ (s : ActorState) (events : List (Event × Nat)),
      (poolRun (some false) (runLoop s events).pool).isSome = true
      ∧ ((runLoop s events).pool.all fun op => decide (op ≠ PoolOp.reclaimFail)) = true :=
  fun s events => ⟨poolRun_runLoop events s, noFail_runLoop events s⟩

/-- C7: on a liveness tick with a pong on record, the flag is consumed
(reset to false) and a Ping with empty payload is sent under the 5 s send
deadline, breaking the loop on deadline expiry and continuing otherwise;
on a tick with no pong on record the loop breaks without any write; and
`got_pong` starts out `true`. -/
theorem c7_liveness_tick :
    initialActorState.got_pong = true
    ∧ (∀ (s : ActorState) (now : Nat) (prog : Option HandleResult),
        s.got_pong = true →
        (step s (.livenessTick .ok prog) now).writes = [WriteOp.ping []]
        ∧ (step s (.livenessTick .ok prog) now).state.got_pong = false
        ∧ (step s (.livenessTick .ok prog) now).exit = StepExit.cont
        ∧ ((step s (.livenessTick .ok prog) now).awaits.all
            fun a => decide (a.deadline = some SEND_TIMEOUT)) = true)
    ∧ (∀ (s : ActorState) (now : Nat) (prog : Option HandleResult),
        s.got_pong = true →
        (step s (.livenessTick .timedOut prog) now).exit = StepExit.broke
        ∧ (step s (.livenessTick .timedOut prog) now).writes = [WriteOp.ping []]
        ∧ (step s (.livenessTick .timedOut prog) now).state.got_pong = false)
    ∧ (∀ (s : ActorState) (now : Nat) (e : String) (prog : Option HandleResult),
        s.got_pong = true →
        (step s (.livenessTick (.err e) prog) now).exit = StepExit.cont
        ∧ (step s (.livenessTick (.err e) prog) now).writes = [WriteOp.ping []])
    ∧ (∀ (s : ActorState) (now : Nat) (out : SendOutcome) (prog : Option HandleResult),
        s.got_pong = false →
        (step s (.livenessTick out prog) now).exit = StepExit.broke
        ∧ (step s (.livenessTick out prog) now).writes = []) := by
  refine ⟨rfl, ?_, ?_, ?_, ?_⟩
  · intro s now prog h
    have hg : (fillSlot s).got_pong = true := by rw [fillSlot_got_pong]; exact h
    refine ⟨?_, ?_, ?_, ?_⟩ <;> simp [step, hg, applyProgress_got_pong]
  · intro s now prog h
    have hg : (fillSlot s).got_pong = true := by rw [fillSlot_got_pong]; exact h
    refine ⟨?_, ?_, ?_⟩ <;> simp [step, hg, applyProgress_got_pong]
  · intro s now e prog h
    have hg : (fillSlot s).got_pong = true := by rw [fillSlot_got_pong]; exact h
    refine ⟨?_, ?_⟩ <;> simp [step, hg]
  · intro s now out prog h
    have hg : (fillSlot s).got_pong = false := by rw [fillSlot_got_pong]; exact h
    cases out <;> refine ⟨?_, ?_⟩ <;> simp [step, hg]

/-- Witness for C7 at the initial state (pong on record) and at a state
with no pong on record. -/
theorem c7_witness :
    (step initialActorState (.livenessTick .ok none) 0).writes = [WriteOp.ping []]
    ∧ (step noPongState (.livenessTick .ok none) 0).exit = StepExit.broke :=
  ⟨(c7_liveness_tick.2.1 initialActorState 0 none rfl).1,
   (c7_liveness_tick.2.2.2.2 noPongState 0 .ok none rfl).1⟩

/-- C8 counterexample: when the database lookup fails internally (with
every earlier check passing), `handle_websocket` panics via `.unwrap()`
instead of returning an HTTP 500 response, contradicting the claim that
any internal failure in the database lookup yields HTTP 500. -/
theorem c8_counterexample :
    handle_websocket envDbErr = HttpResult.panicRes "db lookup failed"
    ∧ decide (handle_websocket envDbErr = HttpResult.response 500 none) = false := by
  decide

/-- C8 amended: a missing subprotocol yields 400, an unknown database
identity yields 404, absence of an available leader yields 404, and
internal failures in leader selection or module-watcher acquisition yield
500 — but an internal failure of the database lookup panics the handler
task (`.unwrap()`) rather than yielding 500. -/
theorem c8_amended :
    ∀ env : WsEnv, env.connection_id.getD env.randomId ≠ 0 →
      ∀ i, env.resolveRes = ResolveRes.resolved i →
      ((env.selectedProtocol = none →
          handle_websocket env = .response 400 (some "no valid protocol selected"))
       ∧ (∀ p e, env.selectedProtocol = some p → env.dbLookup = .lookupErr e →
            handle_websocket env = .panicRes e)
       ∧ (∀ p, env.selectedProtocol = some p → env.dbLookup = .noDb →
            handle_websocket env = .response 404 none)
       ∧ (∀ p d e, env.selectedProtocol = some p → env.dbLookup = .db d →
            env.leaderRes = .leaderErr e → handle_websocket env = .response 500 none)
       ∧ (∀ p d, env.selectedProtocol = some p → env.dbLookup = .db d →
            env.leaderRes = .noLeader → handle_websocket env = .response 404 none)
       ∧ (∀ p d l e, env.selectedProtocol = some p → env.dbLookup = .db d →
            env.leaderRes = .leader l → env.moduleWatcherRes = .watcherErr e →
            handle_websocket env = .response 500 none)) := by
  intro env h0 i hi
  refine ⟨?_, ?_, ?_, ?_, ?_, ?_⟩
  · intro hsp; simp [handle_websocket, h0, hi, hsp]
  · intro p e hsp hdb; simp [handle_websocket, h0, hi, hsp, hdb]
  · intro p hsp hdb; simp [handle_websocket, h0, hi, hsp, hdb]
  · intro p d e hsp hdb hl; simp [handle_websocket, h0, hi, hsp, hdb, hl]
  · intro p d hsp hdb hl; simp [handle_websocket, h0, hi, hsp, hdb, hl]
  · intro p d l e hsp hdb hl hw; simp [handle_websocket, h0, hi, hsp, hdb, hl, hw]

/-- Witness for the amended C8 at concrete environments: unknown database
and failing leader selection. -/
theorem c8_amended_witness :
    handle_websocket envNoDb = HttpResult.response 404 none
    ∧ handle_websocket envLeaderErr = HttpResult.response 500 none :=
  ⟨(c8_amended envNoDb (by decide) 1 rfl).2.2.1 .binary rfl rfl,
   (c8_amended envLeaderErr (by decide) 1 rfl).2.2.2.1 .binary 1 "leader failure" rfl rfl rfl⟩

/-- C9: whenever the loop exits via any `break` path, the outbound
receiver ends up closed (the line after the loop closes it), so producers
observe that the session has ended even when no peer Close frame was ever
received. -/
theorem c9_sendrx_closed_on_return :
    ∀ (s : ActorState) (events : List (Event × Nat)),
      (runLoop s events).terminated = true →
      (runLoop s events).state.sendrxClosed = true := by
  intro s events
  induction events generalizing s with
  | nil => intro h; simp [runLoop] at h
  | cons p rest ih =>
      obtain ⟨e, now⟩ := p
      simp only [runLoop]
      split
      · intro h; exact ih _ h
      · intro _; rfl
      · intro h; simp at h

/-- Witness for C9: a run terminated by end-of-stream leaves the outbound
receiver closed. -/
theorem c9_witness :
    (runLoop initialActorState [(Event.wsEOF, 0)]).state.sendrxClosed = true :=
  c9_sendrx_closed_on_return initialActorState [(Event.wsEOF, 0)] rfl

/-- C10: when the feed of message `k` of an outbound batch fails with a
transport error (and the deadline does not fire), the iteration still
serializes, feeds and reclaims that message, performs no flush and
touches none of the remaining messages, and the loop continues. -/
theorem c10_feed_error_mid_batch :
    ∀ (s : ActorState) (now : Nat) (batch : List SerializableMessage) (k : Nat)
      (restOk : List Bool) (flushOk : Bool) (prog : Option HandleResult),
      s.closed = false → k < batch.length →
      (step s (.outbound batch (List.replicate k true ++ false :: restOk) flushOk none prog)
          now).exit = StepExit.cont
      ∧ (step s (.outbound batch (List.replicate k true ++ false :: restOk) flushOk none prog)
          now).writes = (batch.take (k + 1)).map (fun m => WriteOp.feed m.payload)
      ∧ (step s (.outbound batch (List.replicate k true ++ false :: restOk) flushOk none prog)
          now).pool = (List.replicate k sendCellOk).flatten
            ++ [PoolOp.serializeOp, PoolOp.feedOp false, PoolOp.reclaimOk] := by
  intro s now batch k restOk flushOk prog hcl hk
  have hc : (fillSlot s).closed = false := by rw [fillSlot_closed]; exact hcl
  refine ⟨?_, ?_, ?_⟩ <;>
    simp [step, hc, sendAllLoop_feed_fail k batch restOk flushOk hk]

/-- Witness for C10: a two-message batch whose first feed fails feeds only
the first message and continues. -/
theorem c10_witness :
    (step initialActorState
        (.outbound [⟨.binary [1], none, none⟩, ⟨.binary [2], none, none⟩]
          (List.replicate 0 true ++ false :: []) true none none) 0).writes
      = [WriteOp.feed (.binary [1])]
    ∧ (step initialActorState
        (.outbound [⟨.binary [1], none, none⟩, ⟨.binary [2], none, none⟩]
          (List.replicate 0 true ++ false :: []) true none none) 0).exit = StepExit.cont :=
  ⟨(c10_feed_error_mid_batch initialActorState 0
      [⟨.binary [1], none, none⟩, ⟨.binary [2], none, none⟩] 0 [] true none rfl
      (by decide)).2.1,
   (c10_feed_error_mid_batch initialActorState 0
      [⟨.binary [1], none, none⟩, ⟨.binary [2], none, none⟩] 0 [] true none rfl
      (by decide)).1⟩

end Subscribe
